import Mathlib

/-!
Verification of the `etddepositor` ETD ingest pipeline (Carleton University
Library).  The Python source `etddepositor.py` is shallowly embedded below:
pure metadata-processing functions become Lean functions, fallible Python code
returns `Except PyError`, and the effectful batch loop `create_dspace_import`
becomes a fold over per-package inputs in which the results of external
effects (BagIt validation, file reads, DSpace API calls) are supplied as
oracle fields of the package input.
-/

namespace EtdDepositor

/-- Model of the Python exception classes that the pipeline raises or catches.
`metadataError`, `missingFileError` and `getURLFailedError` are the module's
own exception classes; the others model Python builtins. -/
inductive PyError where
  | metadataError (msg : String)
  | missingFileError (msg : String)
  | getURLFailedError (msg : String)
  | attributeError (msg : String)
  | indexError (msg : String)
  | fileNotFoundError (msg : String)
  | parseError (msg : String)
deriving Repr, DecidableEq

instance {ε α : Type} [DecidableEq ε] [DecidableEq α] :
    DecidableEq (Except ε α) := fun x y =>
  match x, y with
  | .ok a, .ok b => decidable_of_iff (a = b) (by simp)
  | .error a, .error b => decidable_of_iff (a = b) (by simp)
  | .ok _, .error _ => isFalse (by simp)
  | .error _, .ok _ => isFalse (by simp)

/-- `true` exactly when the computation finished without a Python exception. -/
def resultOk {α : Type} (r : Except PyError α) : Bool :=
  match r with
  | .ok _ => true
  | .error _ => false

/-- `true` exactly when the computation raised `MetadataError`. -/
def raisesMetadataError {α : Type} (r : Except PyError α) : Bool :=
  match r with
  | .error (.metadataError _) => true
  | _ => false

/-- `true` exactly when the computation raised `MissingFileError`. -/
def raisesMissingFileError {α : Type} (r : Except PyError α) : Bool :=
  match r with
  | .error (.missingFileError _) => true
  | _ => false

/-! ## Models of the Python string builtins used by the source

All of them recurse structurally over the character list of the string (a
string-length fuel argument makes the two pattern-jumping loops structural),
so every definition evaluates inside the kernel on concrete inputs. -/

/-- The ASCII whitespace characters stripped by Python's `str.strip()` and
split on by `str.split()`. -/
def pyIsSpace (c : Char) : Bool :=
  c = ' ' || c = '\t' || c = '\n' || c = '\r' || c = '\x0b' || c = '\x0c'

/-- Python `str.strip()` on character lists. -/
def pyStripL (cs : List Char) : List Char :=
  ((cs.dropWhile pyIsSpace).reverse.dropWhile pyIsSpace).reverse

/-- Python `str.strip()`. -/
def pyStrip (s : String) : String := String.mk (pyStripL s.data)

/-- Python `s.startswith(pre)`. -/
def pyStartswith (s pre : String) : Bool := pre.data.isPrefixOf s.data

/-- Python `s.endswith(suf)`. -/
def pyEndswith (s suf : String) : Bool :=
  suf.data.reverse.isPrefixOf s.data.reverse

/-- Python `s.lower()` (the creator names involved are ASCII). -/
def pyLower (s : String) : String := String.mk (s.data.map Char.toLower)

/-- Python `s.rstrip(".")`: remove all trailing period characters. -/
def pyRstripDots (s : String) : String :=
  String.mk ((s.data.reverse.dropWhile (fun c => c = '.')).reverse)

/-- Python `needle in hay` substring membership, on the character level. -/
def pySubstr (needle hay : List Char) : Bool :=
  match hay with
  | [] => needle.isEmpty
  | _ :: t => needle.isPrefixOf hay || pySubstr needle t

/-- Python `needle in hay` for strings. -/
def pyIn (needle hay : String) : Bool := pySubstr needle.data hay.data

/-- Python `str.replace(pat, rep)` on character lists: all non-overlapping
occurrences are replaced left to right; an empty pattern inserts the
replacement at every character boundary.  The fuel argument (instantiated
with the list length) only makes the occurrence-jumping recursion
structural; it never runs out because a found occurrence consumes at least
one character. -/
def pyReplaceLF (pat rep : List Char) : Nat → List Char → List Char
  | _, [] => if pat = [] then rep else []
  | 0, cs => cs
  | fuel + 1, c :: rest =>
    if pat.isPrefixOf (c :: rest) && !pat.isEmpty then
      rep ++ pyReplaceLF pat rep fuel ((c :: rest).drop pat.length)
    else if pat = [] then
      rep ++ c :: pyReplaceLF pat rep fuel rest
    else
      c :: pyReplaceLF pat rep fuel rest

/-- Python `str.replace(pat, rep)` for strings. -/
def pyReplace (s pat rep : String) : String :=
  String.mk (pyReplaceLF pat.data rep.data s.data.length s.data)

/-- Python `str.split(sep)` with a one-character separator, on character
lists.  `"".split(",") == [""]` and separators at either end produce empty
fields, as in CPython. -/
def pySplitChar (sep : Char) : List Char → List (List Char)
  | [] => [[]]
  | c :: rest =>
    if c = sep then
      [] :: pySplitChar sep rest
    else
      match pySplitChar sep rest with
      | [] => [[c]]
      | g :: gs => (c :: g) :: gs

/-- Python `str.split(sep)` with a one-character separator string. -/
def pySplit (sep : Char) (s : String) : List String :=
  (pySplitChar sep s.data).map String.mk

/-- Python `str.split(sep)` with a non-empty multi-character separator, on
character lists, with the same structural-fuel device as `pyReplaceLF`. -/
def pySplitPatF (pat : List Char) : Nat → List Char → List (List Char)
  | _, [] => [[]]
  | 0, cs => [cs]
  | fuel + 1, c :: rest =>
    if pat.isPrefixOf (c :: rest) && !pat.isEmpty then
      [] :: pySplitPatF pat fuel ((c :: rest).drop pat.length)
    else
      match pySplitPatF pat fuel rest with
      | [] => [[c]]
      | g :: gs => (c :: g) :: gs

/-- Python `s.split(sep)` for a non-empty separator string. -/
def pySplitStr (s sep : String) : List String :=
  (pySplitPatF sep.data s.data.length s.data).map String.mk

/-- Python `str.split(sep, 1)` when `sep` is known to occur: the text before
the first separator and the text after it. -/
def pySplitOnceL (sep : Char) : List Char → List Char × List Char
  | [] => ([], [])
  | c :: rest =>
    if c = sep then ([], rest)
    else
      let p := pySplitOnceL sep rest
      (c :: p.1, p.2)

/-- Python `str.split(sep, 1)` on strings (first component before the first
separator, second component after it). -/
def pySplitOnce (sep : Char) (s : String) : String × String :=
  let p := pySplitOnceL sep s.data
  (String.mk p.1, String.mk p.2)

/-- Python `s[-1]` on a string known to be non-empty. -/
def pyLast (s : String) : Char := s.data.getLastD ' '

/-- Python `str.split()` with no separator argument, on character lists:
split at every whitespace character. -/
def pySplitPredL (p : Char → Bool) : List Char → List (List Char)
  | [] => [[]]
  | c :: rest =>
    if p c then
      [] :: pySplitPredL p rest
    else
      match pySplitPredL p rest with
      | [] => [[c]]
      | g :: gs => (c :: g) :: gs

/-- Python `str.split()` with no argument: split on whitespace runs and drop
empty fields. -/
def pySplitWs (s : String) : List String :=
  ((pySplitPredL pyIsSpace s.data).map String.mk).filter (fun w => w ≠ "")

/-! ## Mapping tables (`mappings.yaml`), loaded once per run -/

/-- One entry of the `agreements` mapping: the Hyrax term identifier and
whether the agreement must be signed. -/
structure AgreementDef where
  identifier : String
  required : Bool
deriving Repr, DecidableEq

/-- The mapping tables the pipeline reads from the mappings YAML file,
modelled as association lists with the YAML key order. -/
structure Mappings where
  agreements : List (String × AgreementDef)
  abbreviation : List (String × String)
  discipline : List (String × String)
  lc_subject : List (String × List (List String))
deriving Repr

/-- Python `d.get(k)` / `d[k]` on a dict modelled as an association list. -/
def pyDictGet {α : Type} (l : List (String × α)) (k : String) : Option α :=
  (l.find? (fun kv => kv.1 == k)).map (fun kv => kv.2)

/-- Python `k in d` on a dict modelled as an association list. -/
def pyDictContains {α : Type} (l : List (String × α)) (k : String) : Bool :=
  l.any (fun kv => kv.1 == k)

/-! ## Module constants (`etddepositor.py`) -/

/-- `DOI_PREFIX`: Carleton University Library's DOI prefix. -/
def DOI_PREFIX : String := "10.22215"

/-- `DOI_URL_PREFIX`: prefix making DOIs resolvable. -/
def DOI_URL_PREFIX : String := "https://doi.org/"

/-- `FLAG`: sentinel assigned when a mapping lookup is incomplete. -/
def FLAG : String := "FLAG"

/-! ## Field processors (`etddepositor.py`, lines 285-386) -/

/-- `process_description` (line 309): collapse newlines to spaces, delete
carriage returns, trim. -/
def process_description (description : String) : String :=
  pyStrip (pyReplace (pyReplace description "\n" " ") "\r" "")

/-- `process_language` (lines 340-351): map the known ISO-3 forms (and the
empty string) to a two-letter code, raise `MetadataError` otherwise. -/
def process_language (language : String) : Except PyError String :=
  let language := pyStrip language
  if language = "fre" || language = "fra" then
    .ok "fr"
  else if language = "ger" || language = "deu" then
    .ok "de"
  else if language = "spa" then
    .ok "sp"
  else if language = "eng" || language = "" then
    .ok "en"
  else
    .error (.metadataError ("unexpected language " ++ language ++ " found."))

/-- `process_degree` (lines 354-362): expand two historical truncations,
flag the empty degree. -/
def process_degree (degree : String) : String :=
  let degree := pyStrip degree
  if degree = "Master of Architectural Stud" then
    "Master of Architectural Studies"
  else if degree = "Master of Information Tech" then
    "Master of Information Technology"
  else if degree = "" then
    FLAG
  else
    degree

/-- `process_degree_abbreviation` (lines 365-366). -/
def process_degree_abbreviation (degree : String) (m : Mappings) : String :=
  (pyDictGet m.abbreviation degree).getD FLAG

/-- `process_degree_discipline` (lines 369-371). -/
def process_degree_discipline (discipline : String) (m : Mappings) : String :=
  (pyDictGet m.discipline (pyStrip discipline)).getD FLAG

/-- `process_degree_level` (lines 374-386): only "1" and "2" are accepted
(mapped to level names); empty, "0" and anything else raise `MetadataError`. -/
def process_degree_level (level : String) : Except PyError String :=
  let level := pyStrip level
  if level = "" then
    .error (.metadataError "degree level is missing")
  else if level = "0" then
    .error (.metadataError "received undergraduate work, degree level is 0")
  else if level ≠ "1" && level ≠ "2" then
    .error (.metadataError "invalid degree level")
  else if level = "1" then
    .ok "Master\x27s"
  else
    .ok "Doctoral"

/-- `process_contributors` (lines 313-324): render `"Name (Role)"` with the
role's first letter upper-cased, or the bare name when no role attribute is
present (modelled as an empty role string). -/
def process_contributors (contributor_elements : List (String × String)) :
    List String :=
  contributor_elements.map (fun ce =>
    let name := pyStrip ce.1
    let role := ce.2
    if role ≠ "" then
      let role := String.mk ((role.data.headD ' ').toUpper :: role.data.tail)
      name ++ " (" ++ role ++ ")"
    else
      name)

/-- `process_subjects` (lines 285-306): look each trimmed subject code (minus
one trailing period) up in the `lc_subject` mapping, concatenate the tag
tuples in document order, deduplicate exact repeats preserving first-seen
order, and project the primary heading of each tuple with trailing periods
stripped. -/
def process_subjects (subject_texts : List String) (m : Mappings) :
    List (List String) × List String :=
  let subjects := subject_texts.foldl (fun acc t =>
    let subject_code := pyStrip t
    let subject_code :=
      if pyEndswith subject_code "." then subject_code.dropRight 1
      else subject_code
    match pyDictGet m.lc_subject subject_code with
    | some subject_tags => acc ++ subject_tags
    | none => acc) []
  let deduplicated_subjects := subjects.foldl (fun acc subject =>
    if subject ∈ acc then acc else acc ++ [subject]) []
  let subject_values :=
    (deduplicated_subjects.filter (fun entry => entry.length > 1)).map
      (fun entry => pyRstripDots (entry.getD 1 ""))
  (deduplicated_subjects, subject_values)

/-! ## `datetime.strptime(date, "%Y-%m-%d")` (used by `process_date`)

CPython's `_strptime` compiles `%Y-%m-%d` to the regular expression
`(?P<Y>\d\d\d\d)\-(?P<m>1[0-2]|0[1-9]|[1-9])\-(?P<d>3[01]|[12]\d|0[1-9]|[1-9])`,
matches it against a prefix of the input, raises `ValueError` when the match
fails or leaves unconverted characters, and finally constructs a
`datetime.date`, which raises `ValueError` for an out-of-range day or a year
outside `[1, 9999]`. -/

/-- The `%Y` group: exactly four digits. -/
def matchYear4 (cs : List Char) : Option (Nat × List Char) :=
  match cs with
  | c1 :: c2 :: c3 :: c4 :: rest =>
    if c1.isDigit && c2.isDigit && c3.isDigit && c4.isDigit then
      some ((c1.toNat - 48) * 1000 + (c2.toNat - 48) * 100 +
        (c3.toNat - 48) * 10 + (c4.toNat - 48), rest)
    else
      none
  | _ => none

/-- The `%m` group: `1[0-2]|0[1-9]|[1-9]`, alternatives tried in order. -/
def matchMonth (cs : List Char) : Option (Nat × List Char) :=
  match cs with
  | c1 :: c2 :: rest =>
    if c1 = '1' && ('0' ≤ c2 && c2 ≤ '2') then
      some (10 + (c2.toNat - 48), rest)
    else if c1 = '0' && ('1' ≤ c2 && c2 ≤ '9') then
      some (c2.toNat - 48, rest)
    else if '1' ≤ c1 && c1 ≤ '9' then
      some (c1.toNat - 48, c2 :: rest)
    else
      none
  | [c1] =>
    if '1' ≤ c1 && c1 ≤ '9' then some (c1.toNat - 48, []) else none
  | [] => none

/-- The `%d` group: `3[01]|[12]\d|0[1-9]|[1-9]`, alternatives tried in order. -/
def matchDay (cs : List Char) : Option (Nat × List Char) :=
  match cs with
  | c1 :: c2 :: rest =>
    if c1 = '3' && (c2 = '0' || c2 = '1') then
      some (30 + (c2.toNat - 48), rest)
    else if (c1 = '1' || c1 = '2') && c2.isDigit then
      some ((c1.toNat - 48) * 10 + (c2.toNat - 48), rest)
    else if c1 = '0' && ('1' ≤ c2 && c2 ≤ '9') then
      some (c2.toNat - 48, rest)
    else if '1' ≤ c1 && c1 ≤ '9' then
      some (c1.toNat - 48, c2 :: rest)
    else
      none
  | [c1] =>
    if '1' ≤ c1 && c1 ≤ '9' then some (c1.toNat - 48, []) else none
  | [] => none

/-- The successful syntactic match of `%Y-%m-%d` against the whole input. -/
def pyStrptimeYMD (s : String) : Option (Nat × Nat × Nat) :=
  match matchYear4 s.data with
  | none => none
  | some (y, rest) =>
    match rest with
    | '-' :: rest2 =>
      match matchMonth rest2 with
      | none => none
      | some (m, rest3) =>
        match rest3 with
        | '-' :: rest4 =>
          match matchDay rest4 with
          | some (d, []) => some (y, m, d)
          | _ => none
        | _ => none
    | _ => none

/-- Gregorian leap-year rule, as used by `datetime.date`. -/
def pyIsLeap (y : Nat) : Bool :=
  y % 4 = 0 && (y % 100 ≠ 0 || y % 400 = 0)

/-- Number of days in a month, as validated by `datetime.date`. -/
def pyDaysInMonth (y m : Nat) : Nat :=
  if m = 2 then (if pyIsLeap y then 29 else 28)
  else if m = 4 || m = 6 || m = 9 || m = 11 then 30
  else 31

/-- `process_date` (lines 327-337): empty dates and dates rejected by
`strptime`/`datetime.date` raise `MetadataError`; otherwise return the date
and the year rendered back to a string (`str(....year)`). -/
def process_date (date : String) : Except PyError (String × String) :=
  let date := pyStrip date
  if date = "" then
    .error (.metadataError "date tag is missing")
  else
    match pyStrptimeYMD date with
    | some (y, m, d) =>
      if 1 ≤ y && d ≤ pyDaysInMonth y m then
        .ok (date, Nat.repr y)
      else
        .error (.metadataError ("date value " ++ date ++
          " is not properly formatted"))
    | none =>
      .error (.metadataError ("date value " ++ date ++
        " is not properly formatted"))

/-! ## `PackageData` (lines 62-88) and `create_package_data` (lines 389-498) -/

/-- The `PackageData` dataclass, one instance per submission. -/
structure PackageData where
  package_files : List String
  creator : String
  contributors : List String
  date : String
  type : String
  description : String
  publisher : String
  doi : String
  language : String
  rights_notes : String
  title : String
  subjects : List String
  abbreviation : String
  deduped_subjects : List (List String)
  agreements : List String
  degree : String
  degree_discipline : String
  degree_level : String
  url : String
  handle : String
  student_id : String
  embargo_info : List String
deriving Repr, DecidableEq

/-- The text values `create_package_data` reads from the descriptive XML with
`findtext`/`findall` (a missing element yields the `findtext` default `""`;
a contributor's missing `role` attribute yields the `get` default `""`). -/
structure EtdFields where
  title : String
  creator : String
  subject_texts : List String
  description : String
  publisher : String
  contributors : List (String × String)
  date : String
  language : String
  degree_name : String
  rights_notes : String
  discipline : String
  level : String
deriving Repr

/-- The default rights statement interpolated with the package year
(lines 450-461). -/
def defaultRightsNotes (year : String) : String :=
  "Copyright © " ++ year ++ " the author(s). Theses may be used for " ++
  "non-commercial research, educational, or related academic " ++
  "purposes only. Such uses include personal study, distribution to " ++
  "students, research and scholarship. Theses may only be shared by " ++
  "linking to the Carleton University Institutional Repository and " ++
  "no part may be copied without proper attribution to the author; " ++
  "no part may be used for commercial purposes directly or " ++
  "indirectly via a for-profit platform; no adaptation or " ++
  "derivative works are permitted without consent from the " ++
  "copyright owner."

/-- `create_package_data` (lines 389-498): validate and normalize every
field, mint the DOI from the year and the running counter, and build the
`PackageData` record. -/
def create_package_data (f : EtdFields) (student_id : String)
    (doi_ident : Nat) (agreements embargo_info : List String)
    (m : Mappings) : Except PyError PackageData :=
  let title := pyStrip f.title
  if title = "" then
    .error (.metadataError "title tag is missing")
  else
    let creator := pyStrip f.creator
    if creator = "" then
      .error (.metadataError "creator tag is missing")
    else
      let sub := process_subjects f.subject_texts m
      let deduped_subjects := sub.1
      let subjects := sub.2
      let description := process_description f.description
      let publisher0 := pyStrip f.publisher
      let publisher := if publisher0 = "" then "Carleton University"
        else publisher0
      let contributors := process_contributors f.contributors
      match process_date f.date with
      | .error e => .error e
      | .ok (_date, year) =>
        match process_language f.language with
        | .error e => .error e
        | .ok language =>
          let degree := process_degree f.degree_name
          let abbreviation := process_degree_abbreviation degree m
          let rights_notes := pyReplace f.rights_notes f.rights_notes ""
          let rights_notes := if rights_notes = "" then
              defaultRightsNotes year
            else rights_notes
          let discipline := process_degree_discipline f.discipline m
          match process_degree_level f.level with
          | .error e => .error e
          | .ok level =>
            let doi := DOI_PREFIX ++ "/etd/" ++ year ++ "-" ++
              Nat.repr doi_ident
            .ok {
              package_files := []
              creator := creator
              contributors := contributors
              date := year
              type := "thesis"
              description := description
              publisher := publisher
              doi := doi
              language := language
              rights_notes := rights_notes
              title := title
              subjects := subjects
              abbreviation := abbreviation
              deduped_subjects := deduped_subjects
              agreements := agreements
              degree := degree
              degree_discipline := discipline
              degree_level := level
              url := ""
              handle := ""
              student_id := student_id
              embargo_info := embargo_info }

/-! ## `process_agreements` (lines 588-625) -/

/-- The line-scanning loop of `process_agreements`, carrying the
`agreements` and `embargo_dates` accumulators. -/
def processAgreementsGo (m : Mappings) :
    List String → List String → List String →
    Except PyError (List String × List String)
  | [], agreements, embargo_dates => .ok (agreements, embargo_dates)
  | line :: rest, agreements, embargo_dates =>
    let line := pyStrip line
    if pyStartswith line "Student ID" || pyStartswith line "Thesis ID" then
      processAgreementsGo m rest agreements embargo_dates
    else if pyIn "Embargo Expiry" line then
      processAgreementsGo m rest agreements (embargo_dates ++ [line])
    else if m.agreements.any (fun kv => pyStartswith line kv.1) then
      let line_split := pySplitStr line "||"
      match pyDictGet m.agreements (line_split.headD "") with
      | none => .error (.metadataError (line ++ " is invalid"))
      | some agreement =>
        if h2 : 2 < line_split.length then
          let signed := line_split.get ⟨2, h2⟩ == "Y"
          if agreement.required && !signed then
            .error (.metadataError (line ++ " is required but not signed"))
          else if signed then
            processAgreementsGo m rest
              (agreements ++ [agreement.identifier]) embargo_dates
          else
            processAgreementsGo m rest agreements embargo_dates
        else
          .error (.indexError "list index out of range")
    else
      .error (.metadataError
        (line ++ " was not expected in the permissions document"))

/-- `process_agreements`: scan the permissions document's lines, returning
the signed-agreement identifiers and the collected `Embargo Expiry` lines.
No date is parsed and no embargo comparison with the current date occurs:
the function has no clock input at all. -/
def process_agreements (content_lines : List String) (m : Mappings) :
    Except PyError (List String × List String) :=
  processAgreementsGo m content_lines [] []

/-! ## File staging: `copy_thesis_pdf` (lines 511-560) and
`copy_package_files` (lines 565-583)

A candidate primary document is a `(path, byte size)` pair found by
`glob` in the package's `data` directory; the successful result of
`copy_thesis_pdf` is the destination file name under which `shutil.copy2`
wrote the file — an error means nothing was written. -/

/-- The title-word loop of `copy_thesis_pdf`: keep appending
alphanumeric-filtered title words while the length budget allows. -/
def titleWordsLoop (baseLen : Nat) :
    List String → Nat → List String
  | [], _ => []
  | w :: ws, title_words_len =>
    let title_word_filtered :=
      String.mk (w.data.filter (fun c => c.isAlpha || c.isDigit))
    if baseLen + title_words_len > 120 then
      []
    else
      title_word_filtered ::
        titleWordsLoop baseLen ws (title_words_len + title_word_filtered.length)

/-- `copy_thesis_pdf`: select the largest candidate `.pdf` (strictly
increasing scan starting from size 0), build the deterministic destination
name from the creator and title, and copy the file there.  With no selectable
candidate it raises `MetadataError "could not find pdf file"` — not
`MissingFileError` — and nothing is written. -/
def copy_thesis_pdf (package_data : PackageData)
    (pdf_candidates : List (String × Nat)) : Except PyError String :=
  let pick := pdf_candidates.foldl
    (fun (acc : Option String × Nat) potential =>
      if potential.2 > acc.2 then (some potential.1, potential.2) else acc)
    (none, 0)
  match pick.1 with
  | none => .error (.metadataError "could not find pdf file")
  | some _thesis_file_path =>
    let dest_file_name :=
      pyReplace (pyReplace (pyLower package_data.creator) " " "-") "," "-"
    let dest_file_name := dest_file_name ++ "--"
    let title_words :=
      titleWordsLoop dest_file_name.length (pySplitWs package_data.title) 0
    let dest_file_name := dest_file_name ++ String.intercalate "-" title_words
    let dest_file_name := pyLower dest_file_name
    let dest_file_name := dest_file_name ++ ".pdf"
    .ok dest_file_name

/-- `copy_package_files`: stage the thesis PDF and, when a supplemental
subdirectory exists, the `-supplemental.zip` archive; record the ordered
file list on the package (primary document first). -/
def copy_package_files (package_data : PackageData)
    (pdf_candidates : List (String × Nat)) (has_supplemental : Bool) :
    Except PyError PackageData :=
  match copy_thesis_pdf package_data pdf_candidates with
  | .error e => .error e
  | .ok thesis_file_name =>
    if has_supplemental then
      let archive_file_name :=
        thesis_file_name.dropRight 4 ++ "-supplemental.zip"
      .ok { package_data with
        package_files := [thesis_file_name, archive_file_name] }
    else
      .ok { package_data with package_files := [thesis_file_name] }

/-! ## `create_marc_record` (lines 1124-1378)

The module's header does `from datetime import datetime, timezone`
(line 3), so the module-level name `datetime` is the *class*
`datetime.datetime`, and `datetime.date` is that class's instance method
`date`, a plain function object.  Line 1157 (`today = datetime.date.today()`)
therefore raises `AttributeError` unconditionally whenever it is reached;
the file write at line 1375 comes after it. -/

/-- A `datetime.date` value, needed to type the unreachable code after
line 1157. -/
structure PyDate where
  year : Nat
  month : Nat
  day : Nat
deriving Repr, DecidableEq

/-- Zero-padded two-digit rendering used by `strftime`. -/
def pad2 (n : Nat) : String :=
  if n < 10 then "0" ++ Nat.repr n else Nat.repr n

/-- `today.strftime("%y%m%d")`. -/
def pyDateStrftimeYYMMDD (d : PyDate) : String :=
  pad2 (d.year % 100) ++ pad2 d.month ++ pad2 d.day

/-- `today.isoformat()`. -/
def pyDateIsoformat (d : PyDate) : String :=
  Nat.repr d.year ++ "-" ++ pad2 d.month ++ "-" ++ pad2 d.day

/-- The evaluation of `datetime.date.today()` at line 1157: `datetime` is the
imported class, `datetime.date` its instance method, and a function object
has no `today` attribute, so the call raises `AttributeError` for every
input. -/
def datetime_date_today : Except PyError PyDate :=
  .error (.attributeError
    "method_descriptor object has no attribute today")

/-- A MARC field: a control field or a data field with indicators and a
subfield list. -/
inductive MarcField where
  | control (tag data : String)
  | data (tag ind1 ind2 : String) (subfields : List String)
deriving Repr, DecidableEq

/-- The serialized output of `create_marc_record`: the destination file name
(under the `marc` directory) and the record written to it. -/
structure MarcWritten where
  file_name : String
  leader : String
  fields : List MarcField
deriving Repr, DecidableEq

/-- The title/subtitle preprocessing at lines 1128-1139; `s[-1]` on an empty
string raises `IndexError`. -/
def marcTitleParts (title : String) : Except PyError (String × String) :=
  if pyIn ":" title then
    let split_title := pySplitOnce ':' title
    let processed_title := pyStrip split_title.1 ++ " :"
    let subtitle := pyStrip split_title.2
    if subtitle = "" then
      .error (.indexError "string index out of range")
    else if pyLast subtitle ≠ '.' then
      .ok (processed_title, subtitle ++ ".")
    else
      .ok (processed_title, subtitle)
  else
    let processed_title := pyStrip title
    if processed_title = "" then
      .error (.indexError "string index out of range")
    else if pyLast processed_title ≠ '.' then
      .ok (processed_title ++ ".", "")
    else
      .ok (processed_title, "")

/-- The author preprocessing at lines 1153-1155. -/
def marcAuthor (creator : String) : Except PyError String :=
  let processed_author := pyStrip creator
  if processed_author = "" then
    .error (.indexError "string index out of range")
  else if pyLast processed_author ≠ '-' then
    .ok (processed_author ++ ",")
  else
    .ok processed_author

/-- `create_marc_record`: build the title field, the author heading, then
evaluate `datetime.date.today()` (which raises), and — on the unreachable
success path — assemble the fixed field layout and write
`<student_id>_marc.mrc`. -/
def create_marc_record (package_data : PackageData) :
    Except PyError MarcWritten :=
  match marcTitleParts package_data.title with
  | .error e => .error e
  | .ok (processed_title, subtitle) =>
    let title_field :=
      if subtitle ≠ "" then
        MarcField.data "245" "1" "0" ["a", processed_title, "b", subtitle]
      else
        MarcField.data "245" "1" "0" ["a", processed_title]
    match marcAuthor package_data.creator with
    | .error e => .error e
    | .ok processed_author =>
      match datetime_date_today with
      | .error e => .error e
      | .ok today =>
        .ok {
          file_name := package_data.student_id ++ "_marc.mrc"
          leader := "     nam a22     4i 4500"
          fields :=
            [MarcField.control "006" "m     o  d        ",
             MarcField.control "007" "cr || ||||||||",
             MarcField.control "008" (pyDateStrftimeYYMMDD today ++ "s" ++
               package_data.date ++ "    onca||||omb|| 000|0 eng d"),
             MarcField.data "040" " " " "
               ["a", "CaOOCC", "b", "eng", "e", "rda", "c", "CaOOCC"],
             MarcField.data "100" "1" " "
               ["a", processed_author, "e", "author."],
             title_field,
             MarcField.data "264" " " "1"
               ["a", "Ottawa,", "c", package_data.date],
             MarcField.data "264" " " "4" ["c", "©" ++ package_data.date],
             MarcField.data "300" " " " "
               ["a", "1 online resource :", "b", "illustrations"],
             MarcField.data "336" " " " "
               ["a", "text", "b", "txt", "2", "rdacontent"],
             MarcField.data "337" " " " "
               ["a", "computer", "b", "c", "2", "rdamedia"],
             MarcField.data "338" " " " "
               ["a", "online resource", "b", "cr", "2", "rdacarrier"],
             MarcField.data "500" " " " " ["a", package_data.description],
             MarcField.data "502" " " " "
               ["a", "Thesis (" ++ package_data.abbreviation ++
                 ") - Carleton University, " ++ package_data.date ++ "."],
             MarcField.data "504" " " " "
               ["a", "Includes bibliographical references."],
             MarcField.data "540" " " " "
               ["a", "Licensed through author open access agreement. " ++
                 "Commercial use prohibited without author\x27s consent."],
             MarcField.data "591" " " " "
               ["a", "e-thesis deposit", "9", "LOCAL"]] ++
            ((package_data.deduped_subjects.filter
                (fun subject_tags => subject_tags.length % 2 = 0)).map
              (fun subject_tags => MarcField.data "650" " " "0" subject_tags)) ++
            [MarcField.data "710" "2" " "
               ["a", "Carleton University.", "k", "Theses and Dissertations.",
                "g", package_data.degree_discipline ++ "."],
             MarcField.data "856" "4" "0"
               ["u", DOI_URL_PREFIX ++ package_data.doi,
                "z", "Free Access " ++
                  "(Carleton University Institutional Repository Full Text)"],
             MarcField.data "979" " " " "
               ["a", "MARC file generated " ++ pyDateIsoformat today ++
                 " on ETD Depositor", "9", "LOCAL"]] }

/-! ## `create_dissertation_element` (lines 1464-1511) -/

/-- The Crossref `dissertation` element built per completed package. -/
structure DissertationElement where
  given_name : String
  surname : String
  title : String
  year : String
  institution_name : String
  institution_place : String
  degree : String
  doi : String
  resource : String
deriving Repr, DecidableEq

/-- `create_dissertation_element`: `split_name = creator.split(",")`; the
surname is the trimmed first component, and the given name is the trimmed
second component only when the split produced exactly two components
(`len(split_name) == 2`), otherwise the empty string. -/
def create_dissertation_element (package_data : PackageData) :
    DissertationElement :=
  let split_name := pySplit ',' package_data.creator
  let surname_text := pyStrip (split_name.headD "")
  let given_name_text :=
    if split_name.length = 2 then pyStrip (split_name.getD 1 "") else ""
  { given_name := given_name_text
    surname := surname_text
    title := package_data.title
    year := package_data.date
    institution_name := "Carleton University"
    institution_place := "Ottawa, Ontario"
    degree := package_data.degree
    doi := package_data.doi
    resource := package_data.handle }

/-! ## Manifest subject flattening -/

/-- Modelled from the spec: `create_csv_subject`, the Manifest subject-string
flattener, is absent from `src` — only the test suite
(`test_etddepositor.py`, `test_create_csv_subject` and `test_add_to_csv`)
calls it.  Per spec §4.4, each tuple's primary heading text (trailing period
stripped) is optionally suffixed with `" -- "` plus the period-stripped
secondary heading when the tuple carries 4 elements, and the renderings are
joined with the `"|"` delimiter. -/
def create_csv_subject (subjects : List (List String)) : String :=
  String.intercalate "|"
    (subjects.map (fun entry =>
      let primary := pyRstripDots (entry.getD 1 "")
      if entry.length = 4 then
        primary ++ " -- " ++
          pyRstripDots (entry.getD 3 "")
      else
        primary))

/-! ## The Resolver polling loop -/

/-- Modelled from the spec: the Resolver's polling loop is absent from
`src` — only its error class `GetURLFailedError` (etddepositor.py lines
111-112) and the per-package handler in `post_import_processing` (lines
1449-1452) remain.  Per spec §4.5, the loop issues a read-only catalog lookup
per attempt; attempt index `i` (0-based) sleeps `i²` time units before the
next attempt, so the first attempt is immediate; a fixed maximum attempt
count bounds the loop, and exhausting every attempt raises
`GetURLFailedError`.  `catalog i` is the oracle for the response to attempt
`i` (a matching public URL, or `none`); the second component records the
sleeps performed, in order. -/
def resolveGo (catalog : Nat → Option String) :
    Nat → Nat → Except PyError String × List Nat
  | 0, _ =>
    (.error (.getURLFailedError
      "the URL for the imported package could not be found"), [])
  | remaining + 1, i =>
    match catalog i with
    | some url => (.ok url, [])
    | none =>
      let r := resolveGo catalog remaining (i + 1)
      (r.1, i * i :: r.2)

/-- Modelled from the spec: the Resolver entry point — poll the catalog by
the package's stable source identifier, starting at attempt 0 with the full
attempt budget (`resolveGo` carries the remaining attempt count alongside
the current attempt index). -/
def resolve_catalog_url (catalog : Nat → Option String)
    (max_attempts : Nat) : Except PyError String × List Nat :=
  resolveGo catalog max_attempts 0

/-- One package submitted to post-import resolution: its identifier and the
catalog's response oracle. -/
structure ResolveInput where
  student_id : String
  catalog : Nat → Option String

/-- Modelled from the spec: one iteration of the per-package boundary of the
orchestrator (spec §4.6, §7; mirrored by the `except GetURLFailedError`
handler of `post_import_processing`, lines 1449-1452): a resolution failure
is converted into a failure-log entry for that package only. -/
def resolveBatchStep (max_attempts : Nat)
    (acc : List (String × String) × List String) (p : ResolveInput) :
    List (String × String) × List String :=
  match (resolve_catalog_url p.catalog max_attempts).1 with
  | .ok url => (acc.1 ++ [(p.student_id, url)], acc.2)
  | .error _ => (acc.1, acc.2 ++ [p.student_id ++ ": Link not found."])

/-- Modelled from the spec: resolve every imported package in order,
accumulating `(package, url)` successes and failure-log entries; the loop
never aborts. -/
def resolve_batch (max_attempts : Nat) (pkgs : List ResolveInput) :
    List (String × String) × List String :=
  pkgs.foldl (resolveBatchStep max_attempts) ([], [])

/-! ## The batch loop `create_dspace_import` (lines 895-1048)

The loop's external effects are supplied per package as oracle fields:
whether the BagIt container validated, the permissions file's lines (or a
`FileNotFoundError`), the parsed descriptive XML fields (or a
`ParseError`), the `.pdf` candidates found by `glob` with their byte sizes,
whether a supplemental directory exists, whether the checksum file reads of
`build_metadata_payload` succeed, and the item id and handle returned by the
DSpace item-creation call.  Exceptions outside the caught set
(`ElementTree.ParseError`, `MissingFileError`, `MetadataError`,
`FileNotFoundError`) propagate and abort the whole run, which the model
renders as an `Except.error` result of the fold. -/

/-- The per-package input of `create_dspace_import`, with oracles for the
external effects. -/
structure PackageSource where
  student_id : String
  bag_valid : Bool
  permissions_lines : Except Unit (List String)
  xml_fields : Except String EtdFields
  pdf_candidates : List (String × Nat)
  has_supplemental : Bool
  checksum_ok : Bool
  import_item_id : String
  import_handle : String

/-- The accumulator state of the batch loop. -/
structure BatchState where
  doi_ident : Nat
  dspace_import_packages : List PackageData
  failure_log : List String
  skipped_log : List String
  skipped_import_packages : List PackageData
deriving Repr, DecidableEq

/-- Outcome of the body of the `try` block for one package. -/
inductive StepResult where
  | skipped (pd : PackageData)
  | imported (pd : PackageData)

/-- Errors caught at the per-package boundary of `create_dspace_import`
(lines 1014-1029). -/
def isCaughtError : PyError → Bool
  | .parseError _ => true
  | .missingFileError _ => true
  | .metadataError _ => true
  | .fileNotFoundError _ => true
  | _ => false

/-- The failure-log message produced by the handlers at lines 1014-1029. -/
def caughtErrorMessage : PyError → String
  | .parseError msg => "Error parsing XML, " ++ msg ++ "."
  | .missingFileError msg => "Required file is missing, " ++ msg ++ "."
  | .metadataError msg => "Metadata error, " ++ msg ++ "."
  | .fileNotFoundError msg => "File Not Found, " ++ msg ++ "."
  | _ => ""

/-- The body of the `try` block for one package (lines 936-1012): read and
process the permissions document, parse the XML, extract the package data
(minting the DOI from the current counter), stage the files, build the
payload (whose checksum file reads may raise `FileNotFoundError`), divert
explicitly skipped packages, and otherwise run the DSpace import calls. -/
def packageTryBody (m : Mappings) (skipped_ids : List String)
    (doi_ident : Nat) (p : PackageSource) : Except PyError StepResult :=
  match p.permissions_lines with
  | .error _ =>
    .error (.fileNotFoundError ("No such file or directory: " ++
      p.student_id ++ "_permissions_meta.txt"))
  | .ok permissions_file_content =>
    match process_agreements permissions_file_content m with
    | .error e => .error e
    | .ok (agreements, embargo_info) =>
      match p.xml_fields with
      | .error msg => .error (.parseError msg)
      | .ok fields =>
        match create_package_data fields p.student_id doi_ident
            agreements embargo_info m with
        | .error e => .error e
        | .ok package_data =>
          match copy_package_files package_data p.pdf_candidates
              p.has_supplemental with
          | .error e => .error e
          | .ok package_data =>
            if ¬ p.checksum_ok then
              .error (.fileNotFoundError
                "checksum source file could not be read")
            else if p.student_id ∈ skipped_ids then
              .ok (.skipped package_data)
            else
              .ok (.imported package_data)

/-- One iteration of the batch loop: the BagIt pre-check, the `try` body,
the caught-exception handlers, and the `else` clause that increments the DOI
counter and records the imported package (with its handle and URL filled
in). -/
def stepPackage (invalid_ok : Bool) (m : Mappings)
    (skipped_ids : List String) (dspace_base_url : String)
    (st : BatchState) (p : PackageSource) : Except PyError BatchState :=
  if ¬ p.bag_valid && ¬ invalid_ok then
    .ok { st with
      failure_log := st.failure_log ++ [p.student_id ++ ": Invalid BagIt."] }
  else
    match packageTryBody m skipped_ids st.doi_ident p with
    | .error e =>
      if isCaughtError e then
        .ok { st with failure_log := st.failure_log ++ [caughtErrorMessage e] }
      else
        .error e
    | .ok (.skipped package_data) =>
      .ok { st with
        skipped_log := st.skipped_log ++
          [p.student_id ++ ": Skipped (manual processing)"]
        skipped_import_packages :=
          st.skipped_import_packages ++ [package_data] }
    | .ok (.imported package_data) =>
      let handle :=
        if pyIn "carleton-dev.scholaris.ca" dspace_base_url then
          dspace_base_url ++ "/handle/" ++ p.import_handle
        else
          "https://hdl.handle.net/20.500.14718/" ++ p.import_handle
      let package_data := { package_data with
        handle := handle
        url := dspace_base_url ++ "/items/" ++ p.import_item_id }
      .ok { st with
        doi_ident := st.doi_ident + 1
        dspace_import_packages :=
          st.dspace_import_packages ++ [package_data] }

/-- `create_dspace_import`: fold the per-package step over the package list,
starting the DOI counter at `doi_start`. -/
def create_dspace_import (invalid_ok : Bool) (doi_start : Nat)
    (m : Mappings) (skipped_ids : List String) (dspace_base_url : String)
    (packages : List PackageSource) : Except PyError BatchState :=
  packages.foldlM (stepPackage invalid_ok m skipped_ids dspace_base_url)
    { doi_ident := doi_start
      dspace_import_packages := []
      failure_log := []
      skipped_log := []
      skipped_import_packages := [] }

/-! ## Concrete fixtures used by the counterexamples and witnesses -/

/-- A minimal well-formed `PackageData` with the given creator and title. -/
def mkTestPackage (creator title : String) : PackageData :=
  { package_files := []
    creator := creator
    contributors := []
    date := "2021"
    type := "thesis"
    description := ""
    publisher := "Carleton University"
    doi := "10.22215/etd/2021-1"
    language := "en"
    rights_notes := ""
    title := title
    subjects := []
    abbreviation := ""
    deduped_subjects := []
    agreements := []
    degree := ""
    degree_discipline := ""
    degree_level := ""
    url := ""
    handle := ""
    student_id := "SID_1"
    embargo_info := [] }

/-- The subject mapping of the spec's §8 scenario (also the repository test
`test_process_subjects`). -/
def subjectScenarioMappings : Mappings :=
  { agreements := []
    abbreviation := []
    discipline := []
    lc_subject :=
      [("B001", [["a", "Agriculture."]]),
       ("B013", [["a", "Wood."],
                 ["a", "Forest products.", "x", "Biotechnology"]])] }

/-! ## C4 -/

/-- C4: for every degree-level input whose trimmed value is not `"1"` or
`"2"` (including `"0"` and the empty string), `process_degree_level` raises
`MetadataError`; the trimmed inputs `"1"` and `"2"` succeed without
raising. -/
theorem C4_process_degree_level_accepts_only_1_and_2 (level : String) :
    (resultOk (process_degree_level level) = true ↔
      (pyStrip level = "1" ∨ pyStrip level = "2")) ∧
    (raisesMetadataError (process_degree_level level) = true ↔
      ¬ (pyStrip level = "1" ∨ pyStrip level = "2")) := by
  simp only [process_degree_level]
  split_ifs with h1 h2 h3 <;>
    simp_all [resultOk, raisesMetadataError]

/-! ## C3 -/

/-- C3 counterexample: `process_language` maps the ISO-3 input `"eng"` to
the two-letter code `"en"` (not a 3-letter code), accepts the empty string
without raising, and rejects the ISO-2 form `"en"` — three concrete inputs
on which the claim's statement fails. -/
theorem C3_process_language_counterexample :
    process_language "eng" = .ok "en" ∧ ¬ ("en".length = 3) ∧
    process_language "" = .ok "en" ∧
    process_language "en" =
      .error (.metadataError "unexpected language en found.") := by decide

/-- C3 amended: `process_language` returns a two-letter code when the
trimmed input is one of the ISO-3 forms `fre`/`fra` (→ `fr`), `ger`/`deu`
(→ `de`), `spa` (→ `sp`), `eng` or the empty string (→ `en`), and raises
`MetadataError` for every other value (ISO-2 forms included). -/
theorem C3_process_language_amended (language : String) :
    (resultOk (process_language language) = true ↔
      (pyStrip language = "fre" ∨ pyStrip language = "fra" ∨
       pyStrip language = "ger" ∨ pyStrip language = "deu" ∨
       pyStrip language = "spa" ∨ pyStrip language = "eng" ∨
       pyStrip language = "")) ∧
    (∀ code, process_language language = .ok code → code.length = 2) ∧
    (raisesMetadataError (process_language language) = true ↔
      ¬ (pyStrip language = "fre" ∨ pyStrip language = "fra" ∨
         pyStrip language = "ger" ∨ pyStrip language = "deu" ∨
         pyStrip language = "spa" ∨ pyStrip language = "eng" ∨
         pyStrip language = "")) := by
  simp only [process_language]
  split_ifs with h1 h2 h3 h4 <;>
    simp_all [resultOk, raisesMetadataError] <;>
    first
    | decide
    | tauto

/-- C3 amended, witness at the input `"fre"`. -/
theorem C3_process_language_amended_witness :
    resultOk (process_language "fre") = true ∧ "fr".length = 2 :=
  ⟨(C3_process_language_amended "fre").1.mpr (by decide),
   (C3_process_language_amended "fre").2.1 "fr" (by decide)⟩

/-! ## C6 -/

/-- C6 counterexample: with no candidate `.pdf` file, `copy_thesis_pdf`
does not raise `MissingFileError` as claimed — the raised exception is a
`MetadataError`. -/
theorem C6_no_candidate_not_missing_file_error :
    raisesMissingFileError
      (copy_thesis_pdf (mkTestPackage "Creator, Test" "Title") []) = false ∧
    raisesMetadataError
      (copy_thesis_pdf (mkTestPackage "Creator, Test" "Title") []) = true := by
  decide

/-- C6 amended: when the package's data area contains no candidate `.pdf`
file, primary-file selection fails by raising
`MetadataError "could not find pdf file"` (not `MissingFileError`), and no
destination file is written — in this embedding the successful value is
exactly the written destination file, so an `Except.error` result is the
no-write outcome. -/
theorem C6_copy_thesis_pdf_no_candidate (package_data : PackageData) :
    copy_thesis_pdf package_data [] =
      .error (.metadataError "could not find pdf file") := rfl

/-! ## C7 -/

/-- C7: the subject scenario — codes `["B001", "B013"]` under the scenario
mapping yield the deduplicated tuple list
`[[a, Agriculture.], [a, Wood.], [a, Forest products., x, Biotechnology]]`,
whose manifest subject string renders as
`"Agriculture|Wood|Forest products -- Biotechnology"`; repeating the codes
(with stray whitespace) yields the same deduplicated list, confirming
exact-tuple deduplication in first-seen order. -/
theorem C7_subject_scenario :
    (process_subjects ["B001", "B013"] subjectScenarioMappings).1 =
      [["a", "Agriculture."], ["a", "Wood."],
       ["a", "Forest products.", "x", "Biotechnology"]] ∧
    create_csv_subject
        (process_subjects ["B001", "B013"] subjectScenarioMappings).1 =
      "Agriculture|Wood|Forest products -- Biotechnology" ∧
    (process_subjects ["  B001", "B013  ", "B001", " B013 "]
        subjectScenarioMappings).1 =
      [["a", "Agriculture."], ["a", "Wood."],
       ["a", "Forest products.", "x", "Biotechnology"]] := by decide

/-! ## C8: the Crossref name split -/

theorem pySplitChar_ne_nil (sep : Char) (cs : List Char) :
    pySplitChar sep cs ≠ [] := by
  induction cs with
  | nil => simp [pySplitChar]
  | cons c rest ih =>
    simp only [pySplitChar]
    split_ifs
    · simp
    · cases h : pySplitChar sep rest <;> simp

theorem pySplitChar_no_sep (sep : Char) (cs : List Char) (h : sep ∉ cs) :
    pySplitChar sep cs = [cs] := by
  induction cs with
  | nil => rfl
  | cons c rest ih =>
    have hc : ¬ (c = sep) := fun e => h (by simp [e])
    have hr : sep ∉ rest := fun e => h (List.mem_cons_of_mem _ e)
    simp only [pySplitChar, if_neg hc, ih hr]

theorem pySplitChar_append (sep : Char) (pre post : List Char)
    (h : sep ∉ pre) :
    pySplitChar sep (pre ++ sep :: post) = pre :: pySplitChar sep post := by
  induction pre with
  | nil => simp [pySplitChar]
  | cons c cs ih =>
    have hc : ¬ (c = sep) := fun e => h (by simp [e])
    have hcs : sep ∉ cs := fun e => h (List.mem_cons_of_mem _ e)
    have hrec : pySplitChar sep (cs.append (sep :: post)) =
        cs :: pySplitChar sep post := ih hcs
    simp only [List.cons_append, pySplitChar, if_neg hc, hrec]

theorem pySplitChar_length_ge_two (sep : Char) (cs : List Char)
    (h : sep ∈ cs) : 2 ≤ (pySplitChar sep cs).length := by
  induction cs with
  | nil => simp at h
  | cons c rest ih =>
    simp only [pySplitChar]
    by_cases hc : c = sep
    · rw [if_pos hc]
      have hne := pySplitChar_ne_nil sep rest
      have := List.length_pos.2 hne
      simp only [List.length_cons]
      omega
    · rw [if_neg hc]
      have hr : sep ∈ rest := by
        rcases List.mem_cons.1 h with h1 | h1
        · exact absurd h1.symm hc
        · exact h1
      have hlen := ih hr
      cases hsp : pySplitChar sep rest with
      | nil => exact absurd hsp (pySplitChar_ne_nil sep rest)
      | cons g gs =>
        rw [hsp] at hlen
        simp only [List.length_cons] at hlen ⊢
        omega

theorem string_data_comma_append (pre post : String) :
    (pre ++ "," ++ post).data = pre.data ++ ',' :: post.data := by
  simp [String.data_append]

/-- C8 counterexample: a creator with two commas.  The claim predicts the
given name `"Test, Jr."` (the trimmed text after the first comma), but
`create_dissertation_element` produces an empty given name because
`len(creator.split(",")) == 2` fails. -/
theorem C8_crossref_name_counterexample :
    (create_dissertation_element
        (mkTestPackage "Creator, Test, Jr." "Title")).given_name = "" ∧
    (create_dissertation_element
        (mkTestPackage "Creator, Test, Jr." "Title")).given_name ≠
      "Test, Jr." ∧
    (create_dissertation_element
        (mkTestPackage "Creator, Test, Jr." "Title")).surname = "Creator" := by
  decide

/-- C8 amended: the Crossref dissertation element's surname is the trimmed
text before the first comma of the creator; the given name is the trimmed
text after the comma only when the creator contains exactly one comma
(`len(split) == 2`); a mononymous creator (no comma) and a creator with two
or more commas both yield an empty given name. -/
theorem C8_crossref_name_amended (package_data : PackageData) :
    (',' ∉ package_data.creator.data →
      (create_dissertation_element package_data).surname =
        pyStrip package_data.creator ∧
      (create_dissertation_element package_data).given_name = "") ∧
    (∀ pre post : String, package_data.creator = pre ++ "," ++ post →
      ',' ∉ pre.data → ',' ∉ post.data →
      (create_dissertation_element package_data).surname = pyStrip pre ∧
      (create_dissertation_element package_data).given_name = pyStrip post) ∧
    (∀ pre mid post : String,
      package_data.creator = pre ++ "," ++ mid ++ "," ++ post →
      ',' ∉ pre.data →
      (create_dissertation_element package_data).given_name = "") := by
  refine ⟨?_, ?_, ?_⟩
  · intro h
    have hs : pySplit ',' package_data.creator = [package_data.creator] := by
      unfold pySplit
      rw [pySplitChar_no_sep ',' _ h]
      rfl
    simp [create_dissertation_element, hs]
  · intro pre post hcreator hpre hpost
    have hs : pySplit ',' package_data.creator = [pre, post] := by
      unfold pySplit
      rw [hcreator, string_data_comma_append,
        pySplitChar_append ',' _ _ hpre, pySplitChar_no_sep ',' _ hpost]
      rfl
    simp [create_dissertation_element, hs]
  · intro pre mid post hcreator hpre
    have hdata : package_data.creator.data =
        pre.data ++ ',' :: (mid ++ "," ++ post).data := by
      rw [hcreator]
      have : pre ++ "," ++ mid ++ "," ++ post =
          pre ++ "," ++ (mid ++ "," ++ post) := by
        simp [String.append_assoc]
      rw [this, string_data_comma_append]
    have hmem : ',' ∈ (mid ++ "," ++ post).data := by
      rw [string_data_comma_append]
      exact List.mem_append.2 (Or.inr (List.mem_cons_self _ _))
    have hlen : 2 ≤ (pySplitChar ',' ((mid ++ "," ++ post).data)).length :=
      pySplitChar_length_ge_two ',' _ hmem
    have hs : pySplit ',' package_data.creator =
        (pre.data :: pySplitChar ',' ((mid ++ "," ++ post).data)).map
          String.mk := by
      unfold pySplit
      rw [hdata, pySplitChar_append ',' _ _ hpre]
    have hne : (pySplit ',' package_data.creator).length ≠ 2 := by
      rw [hs]
      simp only [List.length_map, List.length_cons]
      omega
    simp only [create_dissertation_element]
    rw [if_neg hne]

/-- C8 amended, witness: the spec's scenario `"Creator, Test"` resolves to
surname `"Creator"` and given name `"Test"`. -/
theorem C8_crossref_name_amended_witness :
    (create_dissertation_element
        (mkTestPackage "Creator, Test" "Title")).surname = "Creator" ∧
    (create_dissertation_element
        (mkTestPackage "Creator, Test" "Title")).given_name = "Test" := by
  have h := (C8_crossref_name_amended
      (mkTestPackage "Creator, Test" "Title")).2.1
    "Creator" " Test" (by decide) (by decide) (by decide)
  exact ⟨by rw [h.1]; decide, by rw [h.2]; decide⟩

/-! ## C1: embargo lines never block a package -/

/-- The agreements mapping of the repository's own test suite
(`TestEmbargoAndAgreements.mappings`). -/
def agreementsTestMappings : Mappings :=
  { agreements :=
      [("Academic Integrity Statement",
         { identifier := "ais", required := true }),
       ("Carleton University Thesis License Agreement",
         { identifier := "cutla", required := true }),
       ("FIPPA", { identifier := "fs", required := true }),
       ("LAC Non-Exclusive License",
         { identifier := "lnel", required := false })]
    abbreviation := []
    discipline := []
    lc_subject := [] }

/-- The `embargo_date_not_passed` permissions document of the repository's
test suite: its embargo expiry `13-AUG-16` variant with a still-future
expiry `13-AUG-99` (i.e. 2099). -/
def embargoNotPassedLines : List String :=
  ["Student ID: 100944645",
   "Thesis ID: 1794",
   "Embargo Expiry: 13-AUG-99",
   "Carleton University Thesis License Agreement||1||Y||19-APR-16",
   "FIPPA||1||Y||19-APR-16",
   "Academic Integrity Statement||1||Y||19-APR-16",
   "LAC Non-Exclusive License||2||Y||13-MAY-16"]

/-- C1 (code-bug evidence): on the repository test fixture whose embargo
expiry date `13-AUG-99` (2099) lies in the future, `process_agreements`
succeeds and merely collects the embargo line — it raises no embargo error.
More generally, any single-line document whose stripped line contains
`"Embargo Expiry"` (and is not an informational line) is returned in the
collected-embargo list without any error, under every mapping: the function
takes no date or clock input, so no comparison with the current date can
occur. -/
theorem C1_process_agreements_ignores_future_embargo :
    (process_agreements embargoNotPassedLines agreementsTestMappings =
      .ok (["cutla", "fs", "ais", "lnel"], ["Embargo Expiry: 13-AUG-99"])) ∧
    (∀ (line : String) (m : Mappings),
      pyStartswith (pyStrip line) "Student ID" = false →
      pyStartswith (pyStrip line) "Thesis ID" = false →
      pyIn "Embargo Expiry" (pyStrip line) = true →
      process_agreements [line] m = .ok ([], [pyStrip line])) := by
  constructor
  · decide
  · intro line m h1 h2 h3
    simp [process_agreements, processAgreementsGo, h1, h2, h3]

/-- C1, witness: a lone future-dated embargo line is collected, not
rejected. -/
theorem C1_process_agreements_ignores_future_embargo_witness :
    process_agreements ["Embargo Expiry: 01-JAN-99"] agreementsTestMappings =
      .ok ([], ["Embargo Expiry: 01-JAN-99"]) :=
  C1_process_agreements_ignores_future_embargo.2
    "Embargo Expiry: 01-JAN-99" agreementsTestMappings
    (by decide) (by decide) (by decide)

/-! ## C2: `create_marc_record` always raises before writing -/

/-- C2: `create_marc_record` never produces a MARC artifact: for every
package it raises before reaching the file write, and whenever the title and
author preprocessing succeed (every ordinary input) the exception is the
`AttributeError` produced by evaluating `datetime.date.today()` on the
imported `datetime` class. -/
theorem C2_create_marc_record_always_raises (package_data : PackageData) :
    resultOk (create_marc_record package_data) = false ∧
    (resultOk (marcTitleParts package_data.title) = true →
      resultOk (marcAuthor package_data.creator) = true →
      create_marc_record package_data = .error
        (.attributeError "method_descriptor object has no attribute today")) := by
  constructor
  · cases h1 : marcTitleParts package_data.title with
    | error e => simp [create_marc_record, h1, resultOk]
    | ok tp =>
      obtain ⟨pt, st⟩ := tp
      cases h2 : marcAuthor package_data.creator with
      | error e => simp [create_marc_record, h1, h2, resultOk]
      | ok pa =>
        simp [create_marc_record, h1, h2, resultOk, datetime_date_today]
  · intro ht ha
    cases h1 : marcTitleParts package_data.title with
    | error e => rw [h1] at ht; simp [resultOk] at ht
    | ok tp =>
      obtain ⟨pt, st⟩ := tp
      cases h2 : marcAuthor package_data.creator with
      | error e => rw [h2] at ha; simp [resultOk] at ha
      | ok pa =>
        simp [create_marc_record, h1, h2, datetime_date_today]

/-- C2, witness: on a representative package the result is exactly the
`AttributeError`, so no MARC file is written. -/
theorem C2_create_marc_record_always_raises_witness :
    resultOk (create_marc_record (mkTestPackage "Creator, Test" "Title")) =
      false ∧
    create_marc_record (mkTestPackage "Creator, Test" "Title") = .error
      (.attributeError "method_descriptor object has no attribute today") :=
  ⟨(C2_create_marc_record_always_raises
      (mkTestPackage "Creator, Test" "Title")).1,
   (C2_create_marc_record_always_raises
      (mkTestPackage "Creator, Test" "Title")).2 (by decide) (by decide)⟩

/-! ## C10: the XML rights text is always discarded -/

theorem isPrefixOf_self (l : List Char) : l.isPrefixOf l = true := by
  induction l with
  | nil => rfl
  | cons c rest ih => simp [List.isPrefixOf, ih]

theorem pyReplaceLF_self_nil_rep (c : Char) (rest : List Char) (fuel : Nat) :
    pyReplaceLF (c :: rest) [] (fuel + 1) (c :: rest) = [] := by
  have hcond : ((c :: rest).isPrefixOf (c :: rest) &&
      !(c :: rest).isEmpty) = true := by
    simp [isPrefixOf_self]
  simp only [pyReplaceLF, hcond, if_true, List.drop_length]
  rfl

/-- `s.replace(s, "")` is always the empty string: the whole string is an
occurrence of itself (and the empty string stays empty). -/
theorem pyReplace_self_empty (s : String) : pyReplace s s "" = "" := by
  unfold pyReplace
  cases hs : s.data with
  | nil => rfl
  | cons c rest =>
    show String.mk (pyReplaceLF (c :: rest) [] (rest.length + 1) (c :: rest)) = ""
    rw [pyReplaceLF_self_nil_rep]

/-- C10: every `PackageData` returned by `create_package_data` carries the
fixed institutional copyright text with the package's year interpolated;
the rights value read from the XML is unconditionally discarded
(`rights_notes.replace(rights_notes, "")` is always empty), so the result
does not depend on it at all. -/
theorem C10_rights_notes_default (f : EtdFields) (student_id : String)
    (doi_ident : Nat) (agreements embargo_info : List String)
    (m : Mappings) :
    (∀ pd, create_package_data f student_id doi_ident agreements
        embargo_info m = .ok pd →
      pd.rights_notes = defaultRightsNotes pd.date) ∧
    (∀ r, create_package_data { f with rights_notes := r } student_id
        doi_ident agreements embargo_info m =
      create_package_data f student_id doi_ident agreements embargo_info m) := by
  constructor
  · intro pd h
    simp only [create_package_data] at h
    repeat' split at h
    all_goals try cases h
    all_goals simp_all [pyReplace_self_empty]
  · intro r
    simp only [create_package_data, pyReplace_self_empty]

/-- Descriptive XML fields carrying a non-empty rights text, for the C10
witness. -/
def c10Fields : EtdFields :=
  { title := "Title"
    creator := "Creator, Test"
    subject_texts := ["B001"]
    description := " Abstract "
    publisher := ""
    contributors := [("Contributor A", "co-author")]
    date := "2021-01-01"
    language := "fre"
    degree_name := "Doctor of Philosophy"
    rights_notes := "All rights reserved by the author"
    discipline := "PHD-01"
    level := "2" }

/-- The package record that `create_package_data` produces from
`c10Fields`. -/
def c10Expected : PackageData :=
  { package_files := []
    creator := "Creator, Test"
    contributors := ["Contributor A (Co-author)"]
    date := "2021"
    type := "thesis"
    description := "Abstract"
    publisher := "Carleton University"
    doi := "10.22215/etd/2021-1"
    language := "fr"
    rights_notes := defaultRightsNotes "2021"
    title := "Title"
    subjects := ["Agriculture"]
    abbreviation := FLAG
    deduped_subjects := [["a", "Agriculture."]]
    agreements := []
    degree := "Doctor of Philosophy"
    degree_discipline := FLAG
    degree_level := "Doctoral"
    url := ""
    handle := ""
    student_id := "SID"
    embargo_info := [] }

set_option maxRecDepth 40000 in
/-- C10, witness: a package whose XML carries a non-empty rights text still
comes out with the default copyright text for its year. -/
theorem C10_rights_notes_default_witness :
    create_package_data c10Fields "SID" 1 [] [] subjectScenarioMappings =
      .ok c10Expected ∧
    c10Expected.rights_notes = defaultRightsNotes c10Expected.date :=
  ⟨by decide,
   (C10_rights_notes_default c10Fields "SID" 1 [] []
      subjectScenarioMappings).1 c10Expected (by decide)⟩

/-! ## C5: the Resolver's retry/backoff contract -/

theorem resolveGo_exhaust (catalog : Nat → Option String) :
    ∀ (remaining i : Nat),
      (∀ j, i ≤ j → j < i + remaining → catalog j = none) →
      resolveGo catalog remaining i =
        (.error (.getURLFailedError
          "the URL for the imported package could not be found"),
         (List.range' i remaining).map (fun j => j * j)) := by
  intro remaining
  induction remaining with
  | zero => intro i _; rfl
  | succ k ih =>
    intro i hnone
    have h0 : catalog i = none := hnone i le_rfl (by omega)
    simp only [resolveGo, h0]
    rw [ih (i + 1) (fun j hj1 hj2 => hnone j (by omega) (by omega)),
      List.range'_succ]
    simp

theorem resolveGo_found (catalog : Nat → Option String) :
    ∀ (remaining i j : Nat) (url : String), i ≤ j → j < i + remaining →
      (∀ k, i ≤ k → k < j → catalog k = none) → catalog j = some url →
      resolveGo catalog remaining i =
        (.ok url, (List.range' i (j - i)).map (fun k => k * k)) := by
  intro remaining
  induction remaining with
  | zero => intro i j url hij hj _ _; omega
  | succ k ih =>
    intro i j url hij hj hnone hfound
    rcases Nat.eq_or_lt_of_le hij with heq | hlt
    · subst heq
      simp [resolveGo, hfound]
    · have h0 : catalog i = none := hnone i le_rfl hlt
      simp only [resolveGo, h0]
      rw [ih (i + 1) j url (by omega) (by omega)
        (fun x hx1 hx2 => hnone x (by omega) hx2) hfound]
      have hspan : j - i = (j - (i + 1)) + 1 := by omega
      rw [hspan, List.range'_succ]
      simp

theorem resolve_batch_length (max_attempts : Nat) :
    ∀ (pkgs : List ResolveInput) (acc : List (String × String) × List String),
      (pkgs.foldl (resolveBatchStep max_attempts) acc).1.length +
        (pkgs.foldl (resolveBatchStep max_attempts) acc).2.length =
      acc.1.length + acc.2.length + pkgs.length := by
  intro pkgs
  induction pkgs with
  | nil => intro acc; simp
  | cons p ps ih =>
    intro acc
    rw [List.foldl_cons, ih]
    unfold resolveBatchStep
    cases (resolve_catalog_url p.catalog max_attempts).1 <;> simp <;> omega

/-- C5: the Resolver polls the catalog with a bounded maximum number of
attempts, sleeping `i²` time units after failed attempt `i` (so the first
attempt is immediate and the sleep schedule before a success at attempt `j`
is `0², 1², …, (j-1)²`); exhausting every attempt yields `GetURLFailedError`;
and in the per-package batch loop a resolution failure only adds that
package's failure-log entry — every other package is still processed, so the
batch is never aborted. -/
theorem C5_resolver_retry_backoff (catalog : Nat → Option String)
    (max_attempts : Nat) (pkgs : List ResolveInput) (p : ResolveInput) :
    ((∀ j, j < max_attempts → catalog j = none) →
      resolve_catalog_url catalog max_attempts =
        (.error (.getURLFailedError
          "the URL for the imported package could not be found"),
         (List.range max_attempts).map (fun i => i * i))) ∧
    (∀ (j : Nat) (url : String), j < max_attempts →
      (∀ i, i < j → catalog i = none) → catalog j = some url →
      resolve_catalog_url catalog max_attempts =
        (.ok url, (List.range j).map (fun i => i * i))) ∧
    ((resolve_batch max_attempts pkgs).1.length +
      (resolve_batch max_attempts pkgs).2.length = pkgs.length) ∧
    (resolve_batch max_attempts (pkgs ++ [p]) =
      match (resolve_catalog_url p.catalog max_attempts).1 with
      | .ok url =>
        ((resolve_batch max_attempts pkgs).1 ++ [(p.student_id, url)],
         (resolve_batch max_attempts pkgs).2)
      | .error _ =>
        ((resolve_batch max_attempts pkgs).1,
         (resolve_batch max_attempts pkgs).2 ++
           [p.student_id ++ ": Link not found."])) := by
  refine ⟨?_, ?_, ?_, ?_⟩
  · intro hnone
    have h := resolveGo_exhaust catalog max_attempts 0
      (fun j _ hj => hnone j (by omega))
    rw [List.range_eq_range']
    exact h
  · intro j url hj hnone hfound
    have h := resolveGo_found catalog max_attempts 0 j url (by omega)
      (by omega) (fun k _ hk => hnone k hk) hfound
    rw [List.range_eq_range']
    simpa using h
  · have h := resolve_batch_length max_attempts pkgs ([], [])
    simpa [resolve_batch] using h
  · unfold resolve_batch
    rw [List.foldl_append]
    simp only [List.foldl_cons, List.foldl_nil]
    unfold resolveBatchStep
    cases h : (resolve_catalog_url p.catalog max_attempts).1 <;> simp [h]

/-- C5, witness: with a catalog that never answers and 3 permitted
attempts, the resolver raises `GetURLFailedError` after sleeping
`0², 1², 2²`; with a catalog answering on attempt 2 it succeeds after
sleeping `0², 1²` (the first attempt is immediate); a batch of one
unresolvable and one resolvable package completes both, logging only the
failure. -/
theorem C5_resolver_retry_backoff_witness :
    (resolve_catalog_url (fun _ => none) 3 =
      (.error (.getURLFailedError
        "the URL for the imported package could not be found"),
       (List.range 3).map (fun i => i * i)) ∧
     (List.range 3).map (fun i => i * i) = [0, 1, 4]) ∧
    (resolve_catalog_url (fun i => if i = 2 then some "u" else none) 3 =
      (.ok "u", (List.range 2).map (fun i => i * i)) ∧
     (List.range 2).map (fun i => i * i) = [0, 1]) ∧
    resolve_batch 3
      [{ student_id := "S1", catalog := fun _ => none },
       { student_id := "S2",
         catalog := fun i => if i = 2 then some "u" else none }] =
      ([("S2", "u")], ["S1: Link not found."]) := by
  refine ⟨⟨?_, by decide⟩, ⟨?_, by decide⟩, by decide⟩
  · exact (C5_resolver_retry_backoff (fun _ => none) 3 []
      { student_id := "", catalog := fun _ => none }).1 (fun j _ => rfl)
  · have h := (C5_resolver_retry_backoff
      (fun i => if i = 2 then some "u" else none) 3 []
      { student_id := "", catalog := fun _ => none }).2.1 2 "u"
      (by omega) (fun i hi => by interval_cases i <;> rfl) (by rfl)
    simpa using h

/-! ## C9: the DOI counter discipline and DOI uniqueness

First, enough theory about `Nat.repr` (which renders both the year and the
counter into the minted DOI string) to recover the counter value from the
DOI: its decimal digits determine the number, and none of them is the `'-'`
separator. -/

/-- The decimal digit characters of `n`, most significant first. -/
def natChars (n : Nat) : List Char :=
  if n < 10 then [Nat.digitChar n]
  else natChars (n / 10) ++ [Nat.digitChar (n % 10)]
decreasing_by exact Nat.div_lt_self (by omega) (by omega)

theorem toDigitsCore_eq_natChars :
    ∀ (fuel n : Nat) (ds : List Char), n < fuel →
      Nat.toDigitsCore 10 fuel n ds = natChars n ++ ds := by
  intro fuel
  induction fuel with
  | zero => intro n ds h; omega
  | succ k ih =>
    intro n ds h
    by_cases h10 : n / 10 = 0
    · have hn : n < 10 := (Nat.div_eq_zero_iff (by omega)).1 h10
      rw [Nat.toDigitsCore, if_pos h10, natChars, if_pos hn,
        Nat.mod_eq_of_lt hn]
      rfl
    · have hpos : 0 < n := by
        rcases Nat.eq_zero_or_pos n with h0 | h0
        · rw [h0] at h10; simp at h10
        · exact h0
      have hdivlt : n / 10 < n := Nat.div_lt_self hpos (by omega)
      have hge : ¬ n < 10 := by
        intro hlt
        exact h10 ((Nat.div_eq_zero_iff (by omega)).2 hlt)
      rw [Nat.toDigitsCore, if_neg h10, ih (n / 10) _ (by omega)]
      conv_rhs => rw [natChars, if_neg hge]
      simp

theorem repr_eq_natChars (n : Nat) :
    Nat.repr n = String.mk (natChars n) := by
  show (Nat.toDigits 10 n).asString = String.mk (natChars n)
  unfold Nat.toDigits
  rw [toDigitsCore_eq_natChars (n + 1) n [] (by omega)]
  simp [List.asString]

theorem digitChar_toNat (d : Nat) (h : d < 10) :
    (Nat.digitChar d).toNat = 48 + d := by
  interval_cases d <;> rfl

theorem digitChar_ne_dash (d : Nat) (h : d < 10) :
    Nat.digitChar d ≠ '-' := by
  interval_cases d <;> decide

theorem natChars_foldl_val (step : Nat → Char → Nat)
    (hstep : ∀ a c, step a c = 10 * a + (c.toNat - 48)) :
    ∀ (n a : Nat), (natChars n).foldl step a =
      a * 10 ^ (natChars n).length + n := by
  intro n
  induction n using Nat.strong_induction_on with
  | _ n ih =>
    intro a
    by_cases h : n < 10
    · rw [natChars, if_pos h]
      simp [hstep, digitChar_toNat n h]
      omega
    · have hpos : 0 < n := by omega
      have hdivlt : n / 10 < n := Nat.div_lt_self hpos (by omega)
      rw [natChars, if_neg h, List.foldl_append, ih (n / 10) hdivlt a]
      have hmod : n % 10 < 10 := Nat.mod_lt _ (by omega)
      simp [hstep, digitChar_toNat (n % 10) hmod, List.length_append,
        pow_succ]
      have hdm := Nat.div_add_mod n 10
      ring_nf
      omega

theorem natChars_val (n : Nat) :
    (natChars n).foldl (fun a c => 10 * a + (c.toNat - 48)) 0 = n := by
  have h := natChars_foldl_val (fun a c => 10 * a + (c.toNat - 48))
    (fun _ _ => rfl) n 0
  simpa using h

theorem natChars_injective (m n : Nat) (h : natChars m = natChars n) :
    m = n := by
  have hm := natChars_val m
  have hn := natChars_val n
  rw [h] at hm
  omega

theorem repr_injective (m n : Nat) (h : Nat.repr m = Nat.repr n) :
    m = n := by
  rw [repr_eq_natChars, repr_eq_natChars] at h
  exact natChars_injective m n (congrArg String.data h)

theorem natChars_no_dash (n : Nat) : '-' ∉ natChars n := by
  induction n using Nat.strong_induction_on with
  | _ n ih =>
    by_cases h : n < 10
    · rw [natChars, if_pos h]
      simpa using (digitChar_ne_dash n h).symm
    · have hpos : 0 < n := by omega
      have hdivlt : n / 10 < n := Nat.div_lt_self hpos (by omega)
      have hmod : n % 10 < 10 := Nat.mod_lt _ (by omega)
      rw [natChars, if_neg h]
      intro hmem
      rcases List.mem_append.1 hmem with hmem | hmem
      · exact ih (n / 10) hdivlt hmem
      · exact digitChar_ne_dash (n % 10) hmod
          (List.mem_singleton.1 hmem).symm

theorem repr_no_dash (n : Nat) : '-' ∉ (Nat.repr n).data := by
  rw [repr_eq_natChars]
  exact natChars_no_dash n

/-- A separator that occurs in neither left part splits a concatenation
uniquely. -/
theorem append_sep_inj (sep : Char) :
    ∀ (a c b d : List Char), sep ∉ a → sep ∉ c →
      a ++ sep :: b = c ++ sep :: d → a = c ∧ b = d := by
  intro a
  induction a with
  | nil =>
    intro c b d _ hc h
    cases c with
    | nil =>
      simp at h
      exact ⟨rfl, h⟩
    | cons c0 cs =>
      simp at h
      exact absurd (h.1 ▸ List.mem_cons_self c0 cs) (h.1 ▸ hc)
  | cons a0 as ih =>
    intro c b d ha hc h
    cases c with
    | nil =>
      simp at h
      exact absurd (h.1 ▸ List.mem_cons_self a0 as) (h.1 ▸ ha)
    | cons c0 cs =>
      simp only [List.cons_append, List.cons.injEq] at h
      have has : sep ∉ as := fun e => ha (List.mem_cons_of_mem _ e)
      have hcs : sep ∉ cs := fun e => hc (List.mem_cons_of_mem _ e)
      obtain ⟨hrest1, hrest2⟩ := ih cs b d has hcs h.2
      exact ⟨by rw [h.1, hrest1], hrest2⟩

/-- The DOI string minted by `create_package_data`:
`f"{DOI_PREFIX}/etd/{year}-{doi_ident}"`. -/
def mkDoiStr (year : String) (doi_ident : Nat) : String :=
  DOI_PREFIX ++ "/etd/" ++ year ++ "-" ++ Nat.repr doi_ident

/-- Two DOI strings whose year parts are decimal renderings agree on the
counter suffix only if the counters are equal. -/
theorem mkDoiStr_inj_ident (y1 y2 i1 i2 : Nat)
    (h : mkDoiStr (Nat.repr y1) i1 = mkDoiStr (Nat.repr y2) i2) :
    i1 = i2 := by
  unfold mkDoiStr at h
  have hd := congrArg String.data h
  have hdash : ("-" : String).data = ['-'] := rfl
  simp only [String.data_append, List.append_assoc, hdash,
    List.cons_append, List.nil_append] at hd
  have h1 := List.append_cancel_left hd
  simp only [List.cons.injEq, true_and] at h1
  have h2 := h1
  have hsplit := append_sep_inj '-' (Nat.repr y1).data (Nat.repr y2).data
    (Nat.repr i1).data (Nat.repr i2).data (repr_no_dash y1)
    (repr_no_dash y2) h2
  exact repr_injective i1 i2 (String.ext hsplit.2)

theorem process_date_year (date d yr : String)
    (h : process_date date = .ok (d, yr)) : ∃ y : Nat, yr = Nat.repr y := by
  simp only [process_date] at h
  split at h
  · cases h
  · split at h
    · split at h
      · cases h
        rename_i y m dd heq hvalid
        exact ⟨y, rfl⟩
      · cases h
    · cases h

theorem create_package_data_doi (f : EtdFields) (student_id : String)
    (doi_ident : Nat) (agreements embargo_info : List String)
    (m : Mappings) (pd : PackageData)
    (h : create_package_data f student_id doi_ident agreements
      embargo_info m = .ok pd) :
    ∃ y : Nat, pd.date = Nat.repr y ∧
      pd.doi = mkDoiStr (Nat.repr y) doi_ident := by
  simp only [create_package_data] at h
  split at h
  · cases h
  · split at h
    · cases h
    · split at h
      · cases h
      · split at h
        · cases h
        · split at h
          · cases h
          · cases h
            rename_i xd dte yr heqdate xl lang heqlang xv lvl heqlevel
            obtain ⟨y, hy⟩ := process_date_year f.date dte yr heqdate
            exact ⟨y, by simp [hy], by simp [hy, mkDoiStr]⟩

theorem copy_package_files_preserves (pd : PackageData)
    (cands : List (String × Nat)) (hs : Bool) (pd' : PackageData)
    (h : copy_package_files pd cands hs = .ok pd') :
    pd'.doi = pd.doi ∧ pd'.date = pd.date := by
  unfold copy_package_files at h
  split at h
  · cases h
  · split at h <;> (cases h; exact ⟨rfl, rfl⟩)

theorem packageTryBody_imported_doi (m : Mappings)
    (skipped_ids : List String) (ident : Nat) (p : PackageSource)
    (pd : PackageData)
    (h : packageTryBody m skipped_ids ident p = .ok (.imported pd)) :
    ∃ y : Nat, pd.date = Nat.repr y ∧
      pd.doi = mkDoiStr (Nat.repr y) ident := by
  unfold packageTryBody at h
  cases hperm : p.permissions_lines with
  | error e => simp only [hperm] at h; cases h
  | ok lines =>
    simp only [hperm] at h
    cases hagr : process_agreements lines m with
    | error e => simp only [hagr] at h; cases h
    | ok pr =>
      obtain ⟨agr, emb⟩ := pr
      simp only [hagr] at h
      cases hxml : p.xml_fields with
      | error msg => simp only [hxml] at h; cases h
      | ok fields =>
        simp only [hxml] at h
        cases hcreate : create_package_data fields p.student_id ident agr
            emb m with
        | error e => simp only [hcreate] at h; cases h
        | ok pd0 =>
          simp only [hcreate] at h
          cases hcopy : copy_package_files pd0 p.pdf_candidates
              p.has_supplemental with
          | error e => simp only [hcopy] at h; cases h
          | ok pd1 =>
            simp only [hcopy] at h
            split at h
            · cases h
            · split at h
              · cases h
              · cases h
                obtain ⟨y, hy1, hy2⟩ := create_package_data_doi fields
                  p.student_id ident agr emb m pd0 hcreate
                obtain ⟨hd, hdt⟩ := copy_package_files_preserves pd0
                  p.pdf_candidates p.has_supplemental _ hcopy
                exact ⟨y, by rw [hdt, hy1], by rw [hd, hy2]⟩

/-- The C9 invariant: the DOI counter always equals the start value plus the
number of imported packages, every imported package's DOI embeds a counter
value smaller than the current counter, and the imported DOIs are pairwise
distinct. -/
def DoiInv (doi_start : Nat) (st : BatchState) : Prop :=
  st.doi_ident = doi_start + st.dspace_import_packages.length ∧
  (∀ pd ∈ st.dspace_import_packages, ∃ y i : Nat, i < st.doi_ident ∧
    pd.doi = mkDoiStr (Nat.repr y) i) ∧
  st.dspace_import_packages.Pairwise (fun a b => a.doi ≠ b.doi)

/-- One package processed in any log/skip/import bucket adds exactly one
entry overall. -/
def batchCount (st : BatchState) : Nat :=
  st.dspace_import_packages.length + st.failure_log.length +
    st.skipped_log.length

theorem stepPackage_inv (invalid_ok : Bool) (m : Mappings)
    (skipped_ids : List String) (dspace_base_url : String)
    (doi_start : Nat) (st st' : BatchState) (p : PackageSource)
    (hstep : stepPackage invalid_ok m skipped_ids dspace_base_url st p =
      .ok st')
    (hinv : DoiInv doi_start st) :
    DoiInv doi_start st' ∧ batchCount st' = batchCount st + 1 := by
  obtain ⟨hcount, hshape, hpair⟩ := hinv
  unfold stepPackage at hstep
  split at hstep
  · cases hstep
    exact ⟨⟨hcount, hshape, hpair⟩, by simp [batchCount]; omega⟩
  · split at hstep
    · split at hstep
      · cases hstep
        exact ⟨⟨hcount, hshape, hpair⟩, by simp [batchCount]; omega⟩
      · cases hstep
    · cases hstep
      exact ⟨⟨hcount, hshape, hpair⟩, by simp [batchCount]; omega⟩
    · rename_i pd himported
      cases hstep
      obtain ⟨y, hydate, hydoi⟩ := packageTryBody_imported_doi m
        skipped_ids st.doi_ident p pd himported
      constructor
      · refine ⟨by simp only [List.length_append, List.length_cons,
            List.length_nil, hcount]; omega, ?_, ?_⟩
        · intro pd1 hmem
          rcases List.mem_append.1 hmem with hmem | hmem
          · obtain ⟨y1, i1, hi1, hdoi1⟩ := hshape pd1 hmem
            exact ⟨y1, i1, by simp; omega, hdoi1⟩
          · rcases List.mem_singleton.1 hmem with rfl
            exact ⟨y, st.doi_ident, by simp, by simpa using hydoi⟩
        · rw [List.pairwise_append]
          refine ⟨hpair, by simp, ?_⟩
          intro a hmem b hb
          rcases List.mem_singleton.1 hb with rfl
          obtain ⟨y1, i1, hi1, hdoi1⟩ := hshape a hmem
          intro hcontra
          rw [hdoi1] at hcontra
          dsimp only [] at hcontra
          rw [hydoi] at hcontra
          have := mkDoiStr_inj_ident y1 y i1 st.doi_ident hcontra
          omega
      · simp [batchCount]; omega

theorem foldlM_stepPackage_inv (invalid_ok : Bool) (m : Mappings)
    (skipped_ids : List String) (dspace_base_url : String)
    (doi_start : Nat) :
    ∀ (packages : List PackageSource) (st st' : BatchState),
      packages.foldlM
        (stepPackage invalid_ok m skipped_ids dspace_base_url) st =
        .ok st' →
      DoiInv doi_start st →
      DoiInv doi_start st' ∧
        batchCount st' = batchCount st + packages.length := by
  intro packages
  induction packages with
  | nil =>
    intro st st' h hinv
    simp only [List.foldlM_nil] at h
    cases h
    exact ⟨hinv, by simp⟩
  | cons p ps ih =>
    intro st st' h hinv
    rw [List.foldlM_cons] at h
    cases hstep : stepPackage invalid_ok m skipped_ids dspace_base_url
        st p with
    | error e => rw [hstep] at h; cases h
    | ok st1 =>
      rw [hstep] at h
      simp only [bind, Except.bind] at h
      obtain ⟨hinv1, hc1⟩ := stepPackage_inv invalid_ok m skipped_ids
        dspace_base_url doi_start st st1 p hstep hinv
      obtain ⟨hinv2, hc2⟩ := ih st1 st' h hinv1
      refine ⟨hinv2, ?_⟩
      rw [hc2, hc1]
      simp only [List.length_cons]
      omega

/-- C9: in any run of the batch loop that finishes, the DOI counter has
been incremented exactly once per package that completed validation,
extraction, file staging and import without a caught error (the imported
packages), and never for a failed or skipped package — every processed
package lands in exactly one of the imported/failed/skipped buckets — and
consequently the imported packages' DOIs are pairwise distinct. -/
theorem C9_doi_counter_discipline (invalid_ok : Bool) (doi_start : Nat)
    (m : Mappings) (skipped_ids : List String) (dspace_base_url : String)
    (packages : List PackageSource) (final : BatchState)
    (h : create_dspace_import invalid_ok doi_start m skipped_ids
      dspace_base_url packages = .ok final) :
    final.doi_ident = doi_start + final.dspace_import_packages.length ∧
    final.dspace_import_packages.length + final.failure_log.length +
      final.skipped_log.length = packages.length ∧
    final.dspace_import_packages.Pairwise (fun a b => a.doi ≠ b.doi) := by
  unfold create_dspace_import at h
  have hinv0 : DoiInv doi_start
      { doi_ident := doi_start, dspace_import_packages := [],
        failure_log := [], skipped_log := [],
        skipped_import_packages := [] } := by
    refine ⟨by simp, by simp, by simp⟩
  obtain ⟨⟨hc, hs, hp⟩, hcount⟩ := foldlM_stepPackage_inv invalid_ok m
    skipped_ids dspace_base_url doi_start packages _ final h hinv0
  refine ⟨hc, ?_, hp⟩
  simpa [batchCount] using hcount

/-- A package that imports successfully (C9 witness). -/
def c9SuccessPackage : PackageSource :=
  { student_id := "S1"
    bag_valid := true
    permissions_lines := .ok []
    xml_fields := .ok c10Fields
    pdf_candidates := [("thesis.pdf", 10)]
    has_supplemental := false
    checksum_ok := true
    import_item_id := "uuid-1"
    import_handle := "123/456" }

/-- A package whose XML fails to parse (C9 witness). -/
def c9FailPackage : PackageSource :=
  { student_id := "S2"
    bag_valid := true
    permissions_lines := .ok []
    xml_fields := .error "syntax error: line 1, column 0"
    pdf_candidates := []
    has_supplemental := false
    checksum_ok := true
    import_item_id := ""
    import_handle := "" }

/-- A package diverted by the skip list (C9 witness). -/
def c9SkipPackage : PackageSource :=
  { student_id := "S3"
    bag_valid := true
    permissions_lines := .ok []
    xml_fields := .ok c10Fields
    pdf_candidates := [("t.pdf", 5)]
    has_supplemental := false
    checksum_ok := true
    import_item_id := ""
    import_handle := "" }

/-- The C9 witness batch: one imported, one failed, one skipped package. -/
def c9Packages : List PackageSource :=
  [c9SuccessPackage, c9FailPackage, c9SkipPackage]

/-- Run the batch loop on the witness packages with counter start 7. -/
def c9Result : Except PyError BatchState :=
  create_dspace_import true 7 subjectScenarioMappings ["S3"]
    "https://repo.example.org" c9Packages

/-- The final state of the witness run. -/
def c9Final : BatchState :=
  match c9Result with
  | .ok st => st
  | .error _ =>
    { doi_ident := 0, dspace_import_packages := [], failure_log := [],
      skipped_log := [], skipped_import_packages := [] }

set_option maxRecDepth 100000 in
/-- C9, witness: on a batch of one imported, one failed and one skipped
package starting at counter 7, the final counter is 7 plus the one imported
package, the three packages land in exactly three buckets, and the imported
DOIs are distinct. -/
theorem C9_doi_counter_discipline_witness :
    c9Final.doi_ident = 7 + c9Final.dspace_import_packages.length ∧
    c9Final.dspace_import_packages.length + c9Final.failure_log.length +
      c9Final.skipped_log.length = c9Packages.length ∧
    c9Final.dspace_import_packages.Pairwise (fun a b => a.doi ≠ b.doi) :=
  C9_doi_counter_discipline true 7 subjectScenarioMappings ["S3"]
    "https://repo.example.org" c9Packages c9Final (by decide)

end EtdDepositor
